import Mathlib

/-!
Verification development for the gitdown repository (src/main.rs, src/error.rs).

The Rust sources are shallowly embedded: pure control flow is translated to
Lean functions; library effects (reqwest transport, serde parsing, the fzf
child process, filesystem writes) appear as explicit oracle parameters whose
results drive the same branches the Rust code takes.  Machine panics
(`unwrap`, `expect`) are modelled as an explicit `panicked` outcome.
-/

namespace Gitdown

/-- Opaque model of a `reqwest::Error` transport error (carried verbatim). -/
structure ReqwestError where
  msg : String
deriving DecidableEq

/-- Opaque model of a `std::io::Error` local I/O error (carried verbatim). -/
structure IoError where
  msg : String
deriving DecidableEq

/-- The closed error taxonomy of src/error.rs (`enum ErrorKind`), one
constructor per Rust variant, each carrying the same payload fields.
`reqwest::StatusCode` is modelled as the numeric status code. -/
inductive ErrorKind where
  | DownloadFailure (path : String)
  | EmptyText
  | GitHubStatusFailure (status : Nat) (msg : String)
  | Interrupted
  | MalformedRepo (repo : String)
  | ReadFailure (path : String)
  | ResponseKeyError (key : String)
  | TreeDoesNotExist (tree : String) (repo : String)
  | HttpClientError (e : ReqwestError)
  | IoError (e : IoError)
  | Other (status : String)
deriving DecidableEq

/-- The two wrapped underlying errors that could in principle be exposed as a
cause by `Error::source` (src/error.rs lines 78-86). -/
inductive ErrorSource where
  | fromReqwest (e : ReqwestError)
  | fromIo (e : IoError)
deriving DecidableEq

/-- Embedding of `impl std::error::Error for Error { fn source ... }`
(src/error.rs lines 78-86): only the `HttpClientError` arm returns `Some`;
every other kind, `IoError` included, falls into the `_ => None` arm. -/
def errorSource : ErrorKind → Option ErrorSource
  | .HttpClientError s => some (.fromReqwest s)
  | _ => none

/-- Result of running a fallible piece of the Rust program: a value, a
returned `Err(Box<Error>)` of some `ErrorKind`, or a panic (from `unwrap` /
`expect`) that aborts the program. -/
inductive Step (α : Type) where
  | ok (a : α)
  | err (e : ErrorKind)
  | panicked (msg : String)
deriving DecidableEq

/-- Minimal model of a `serde_json::Value` document. -/
inductive Json where
  | null
  | bool (b : Bool)
  | num (n : Int)
  | str (s : String)
  | arr (xs : List Json)
  | obj (fields : List (String × Json))

/-- First-match lookup of a key among an object's fields. -/
def lookupField : List (String × Json) → String → Option Json
  | [], _ => none
  | (k, v) :: rest, key => if k = key then some v else lookupField rest key

/-- Embedding of `serde_json::Value::get(key)`: a field lookup that yields
`none` on any non-object document or absent key. -/
def Json.get : Json → String → Option Json
  | .obj fields, key => lookupField fields key
  | _, _ => none

/-- A GitHub directory entry as deserialized in src/main.rs lines 15-28:
`path` and `size` are optional, `ty` (serde-renamed from `type`) is the
entry's type string, `raw_path` the raw githubusercontent url. -/
structure GitHubDirEntry where
  path : Option String
  ty : String
  size : Option Nat
  raw_path : Option String
deriving DecidableEq

/-- Model of a `reqwest::Response` as far as the program observes it: its
HTTP status code and the (one-shot, fallible) result of reading its body
with `text()`. -/
structure HttpResponse where
  status : Nat
  textResult : Except ReqwestError String

/-- Embedding of `Client::send` (src/main.rs lines 45-59).  The transport
oracle is the outcome of `req.send().await`; the trailing `?` converts a
transport error by `From<reqwest::Error>` into `HttpClientError` unchanged.
On a non-200 status the error message body is read with
`res.text().await.unwrap()`: a failing body read there panics. -/
def send (transport : Except ReqwestError HttpResponse) : Step HttpResponse :=
  match transport with
  | .error e => .err (.HttpClientError e)
  | .ok res =>
    if res.status = 200 then
      .ok res
    else
      match res.textResult with
      | .ok msg => .err (.GitHubStatusFailure res.status msg)
      | .error _ => .panicked "called Result::unwrap on an Err value"

/-- Embedding of `Client::get_dentries` (src/main.rs lines 61-99).
`transport` is the outcome of the underlying tree-listing HTTP call;
`parse` models `serde_json::from_str` (`none` = malformed JSON, whose
`unwrap` panics); `deser` models `serde_json::from_value::<Vec<GitHubDirEntry>>`
(`none` = shape mismatch, whose `unwrap` panics).  Any `Err` from `send` is
replaced by `TreeDoesNotExist`; a present `tree` key is deserialized and
filtered down to entries whose type string equals "blob". -/
def get_dentries (username repo : String) (tree : Option String)
    (transport : Except ReqwestError HttpResponse)
    (parse : String → Option Json)
    (deser : Json → Option (List GitHubDirEntry)) : Step (List GitHubDirEntry) :=
  match send transport with
  | .panicked m => .panicked m
  | .err _ => .err (.TreeDoesNotExist (tree.getD "main") (username ++ "/" ++ repo))
  | .ok res =>
    match res.textResult with
    | .error e => .err (.HttpClientError e)
    | .ok text =>
      match parse text with
      | none => .panicked "called Result::unwrap on an Err value"
      | some body =>
        match body.get "tree" with
        | none => .err (.ResponseKeyError "tree")
        | some dv =>
          match deser dv with
          | none => .panicked "called Result::unwrap on an Err value"
          | some dentries => .ok (dentries.filter (fun d => d.ty == "blob"))

/-- ASCII fragment of Rust's `char::is_whitespace`, the predicate behind
`str::trim`; the program only ever meets ASCII picker output. -/
def isRustWhitespace (c : Char) : Bool :=
  c = ' ' || c = '\t' || c = '\n' || c = '\r' || c = '\x0b' || c = '\x0c'

/-- Embedding of Rust's `str::trim`: drop whitespace from both ends of the
character sequence. -/
def rustTrim (l : List Char) : List Char :=
  ((l.dropWhile isRustWhitespace).reverse.dropWhile isRustWhitespace).reverse

/-- Embedding of Rust's `str::split("\n")` on a character sequence: split at
every newline, keeping empty segments; an empty input yields one empty
segment (Rust's `split` never yields an empty iterator). -/
def splitNl : List Char → List (List Char)
  | [] => [[]]
  | c :: rest =>
    if c = '\n' then
      [] :: splitNl rest
    else
      match splitNl rest with
      | [] => [[c]]
      | h :: t => (c :: h) :: t

/-- Model of `std::process::ExitStatus` on Unix: either a normal exit with a
code, or termination by a signal. -/
inductive ExitStatus where
  | exited (code : Nat)
  | signaled (sig : Nat)
deriving DecidableEq

/-- Embedding of `ExitStatus::success()`: true exactly for exit code 0. -/
def ExitStatus.success : ExitStatus → Bool
  | .exited 0 => true
  | _ => false

/-- Embedding of `ExitStatus::code()`: `None` exactly when the child was
terminated by a signal. -/
def ExitStatus.code : ExitStatus → Option Nat
  | .exited c => some c
  | .signaled _ => none

/-- Rendering of an `ExitStatus` by Rust's `Display`, as interpolated into
the diagnostic message of the `Other` error. -/
def ExitStatus.display : ExitStatus → String
  | .exited c => "exit status: " ++ toString c
  | .signaled s => "signal: " ++ toString s

/-- Embedding of the interpretation stage of `get_from_fzf`
(src/main.rs lines 131-159), after `child.wait()` has produced `status`.
`stdoutRead` is the outcome of `read_to_string` on the child's piped stdout
(its trailing `?` converts a read failure into `IoError`).  On success the
output is trimmed, split on newlines and returned as `Ok(Some(...))`; a
signal termination maps to `Interrupted`; a non-zero exit code maps to an
`Other` error whose message interpolates the raw exit status. -/
def interpretFzf (status : ExitStatus) (stdoutRead : Except IoError (List Char)) :
    Step (Option (List (List Char))) :=
  if status.success then
    match stdoutRead with
    | .error e => .err (.IoError e)
    | .ok output => .ok (some (splitNl (rustTrim output)))
  else
    match status.code with
    | none => .err .Interrupted
    | some _ =>
      .err (.Other ("An error occured; likely, a file was not chosen: " ++ status.display))

/-- The fixed fetch-concurrency cap: the argument of `buffer_unordered(4)`
at src/main.rs line 261. -/
def fetchConcurrency : Nat := 4

/-- Embedding of the raw-content url built for a chosen path in main's fetch
loop (src/main.rs lines 224-227). -/
def rawContentUrl (user repo path : String) : String :=
  "https://raw.githubusercontent.com/" ++ user ++ "/" ++ repo ++ "/main/" ++ path

/-- Model of the body of a `reqwest::Response` in the fetch loop: the
fallible result of `res.text().await`. -/
structure RawResponse where
  text : Except ReqwestError String

/-- What one fetch task of main's loop does for its target (src/main.rs
lines 248-259): write the fetched body to the entry's path, log a
per-target diagnostic with `error!`, or panic out of `expect`. -/
inductive TaskOutcome where
  | wrote (path body : String)
  | logged (msg : String)
  | panicked (msg : String)
deriving DecidableEq

/-- Embedding of one fetch task of main's loop (src/main.rs lines 248-259)
for a chosen `path`.  `fetch` is the transport oracle for
`client.get(&raw_path).send().await`; `write` is the filesystem oracle for
`fs::write` (false = failure).  A transport failure logs
"when downloading ...", a body-read failure logs "when reading ...", a
write failure panics with the `expect` message "Unable to write file". -/
def runFetchTask (fetch : String → Except ReqwestError RawResponse)
    (write : String → String → Bool) (user repo path : String) : TaskOutcome :=
  match fetch (rawContentUrl user repo path) with
  | .error _ => .logged ("when downloading " ++ rawContentUrl user repo path)
  | .ok res =>
    match res.text with
    | .error _ => .logged ("when reading " ++ rawContentUrl user repo path)
    | .ok text =>
      if write path text then .wrote path text else .panicked "Unable to write file"

/-- Embedding of main's whole fetch pipeline over a completion order of the
chosen paths: each task runs to its outcome; a panic in any task unwinds
through the `collect().await` in `main` and aborts the program, dropping
every task not yet completed (the `Except.error` case carries the panic
message); otherwise all outcomes are collected. -/
def runFetchAll (fetch : String → Except ReqwestError RawResponse)
    (write : String → String → Bool) (user repo : String) :
    List String → Except String (List TaskOutcome)
  | [] => .ok []
  | p :: ps =>
    match runFetchTask fetch write user repo p with
    | .panicked m => .error m
    | o => (runFetchAll fetch write user repo ps).map (o :: ·)

/-- State of the `buffer_unordered(4)` scheduler of main's fetch loop: the
targets not yet started (in stream order), those currently in flight, and
those already finished. -/
structure FetchState where
  pending : List String
  inFlight : List String
  finished : List String

/-- Small-step semantics of `futures::stream::buffer_unordered(n)` as used
at src/main.rs line 261: a new fetch is started only while fewer than `n`
are in flight; any in-flight fetch may complete in any order. -/
inductive FetchStep (n : Nat) : FetchState → FetchState → Prop
  | start (p : String) (ps fl fin : List String) :
      fl.length < n →
      FetchStep n ⟨p :: ps, fl, fin⟩ ⟨ps, p :: fl, fin⟩
  | complete (p : String) (pend fl₁ fl₂ fin : List String) :
      FetchStep n ⟨pend, fl₁ ++ p :: fl₂, fin⟩ ⟨pend, fl₁ ++ fl₂, p :: fin⟩

/-- The states the scheduler can reach from the initial state on a given
list of chosen targets. -/
inductive FetchReach (n : Nat) (targets : List String) : FetchState → Prop
  | init : FetchReach n targets ⟨targets, [], []⟩
  | step {s s' : FetchState} :
      FetchReach n targets s → FetchStep n s s' → FetchReach n targets s'

/-! Concrete oracles used to exercise the embedding on closed inputs. -/

/-- A parse oracle whose result is never consulted on the paths exercised. -/
def noParse : String → Option Json := fun _ => none

/-- A deserialization oracle whose result is never consulted on the paths
exercised. -/
def noDeser : Json → Option (List GitHubDirEntry) := fun _ => none

/-- A transport outcome delivering a 404 with a readable error body. -/
def c6transport : Except ReqwestError HttpResponse :=
  .ok ⟨404, .ok "Not Found"⟩

/-- A 200 response whose body read fails at the transport layer. -/
def c6res : HttpResponse := ⟨200, .error ⟨"body read failed"⟩⟩

/-- A 200 response with a readable body. -/
def demoRes : HttpResponse := ⟨200, .ok "tree json"⟩

/-- The tree value of the demo listing. -/
def demoTree : Json := Json.arr []

/-- A parsed listing document holding a tree key. -/
def demoBody : Json := Json.obj [("tree", demoTree)]

/-- A parse oracle producing the demo listing document. -/
def demoParse : String → Option Json := fun _ => some demoBody

/-- A demo listing: two blob entries around one tree entry. -/
def demoEntries : List GitHubDirEntry :=
  [⟨some "a.txt", "blob", some 10, none⟩,
   ⟨some "dir", "tree", none, none⟩,
   ⟨some "b.txt", "blob", some 5, none⟩]

/-- A deserialization oracle producing the demo entries. -/
def demoDeser : Json → Option (List GitHubDirEntry) := fun _ => some demoEntries

/-- A parsed document that lacks any tree key. -/
def noTreeBody : Json := Json.obj [("message", Json.str "Not Found")]

/-- A parse oracle producing a document without a tree key. -/
def noTreeParse : String → Option Json := fun _ => some noTreeBody

/-- A fetch oracle that fails at the transport stage for the target "two"
and succeeds with a deterministic body everywhere else. -/
def w2fetch : String → Except ReqwestError RawResponse := fun raw =>
  if raw = rawContentUrl "u" "r" "two" then .error ⟨"connection refused"⟩
  else .ok ⟨.ok ("body of " ++ raw)⟩

/-- A write oracle that always succeeds. -/
def w2write : String → String → Bool := fun _ _ => true

/-- A fetch oracle that always succeeds with a deterministic body. -/
def w10fetch : String → Except ReqwestError RawResponse := fun raw =>
  .ok ⟨.ok ("data " ++ raw)⟩

/-- A write oracle that fails exactly for the local path "bad". -/
def w10write : String → String → Bool := fun path _ => path != "bad"

/-! Helper lemmas shared by the claim theorems. -/

/-- Splitting on newlines never yields an empty list of segments: Rust's
`str::split` always produces at least one item. -/
theorem splitNl_ne_nil : ∀ l : List Char, splitNl l ≠ []
  | [] => by simp [splitNl]
  | c :: rest => by
    simp only [splitNl]
    split
    · simp
    · split
      · simp
      · simp

/-- Under a write oracle that always succeeds, a fetch task never panics. -/
theorem runFetchTask_ne_panicked (fetch : String → Except ReqwestError RawResponse)
    (write : String → String → Bool) (user repo p : String)
    (hw : ∀ x y, write x y = true) (m : String) :
    runFetchTask fetch write user repo p ≠ .panicked m := by
  intro h
  cases hfetch : fetch (rawContentUrl user repo p) with
  | error e => simp [runFetchTask, hfetch] at h
  | ok res =>
    cases htext : res.text with
    | error e => simp [runFetchTask, hfetch, htext] at h
    | ok text => simp [runFetchTask, hfetch, htext, hw] at h

/-- Under a write oracle that always succeeds, the pipeline completes every
task and collects all of their outcomes in order. -/
theorem runFetchAll_eq_map (fetch : String → Except ReqwestError RawResponse)
    (write : String → String → Bool) (user repo : String)
    (hw : ∀ x y, write x y = true) :
    ∀ paths, runFetchAll fetch write user repo paths
      = .ok (paths.map (runFetchTask fetch write user repo))
  | [] => rfl
  | p :: ps => by
    have ih := runFetchAll_eq_map fetch write user repo hw ps
    simp only [runFetchAll, List.map]
    cases h : runFetchTask fetch write user repo p with
    | wrote a b => simp [ih, Except.map]
    | logged msg => simp [ih, Except.map]
    | panicked m => exact absurd h (runFetchTask_ne_panicked fetch write user repo p hw m)

/-! Claim theorems. -/

/-- Claim C8 counterexample: at the concrete error kind wrapping the local
I/O error "disk full", `Error::source` returns `None` — the wrapped I/O
cause is not exposed, contradicting the claim that `source` returns `Some`
of the wrapped error for `IoError` as well as `HttpClientError`. -/
theorem C8_counterexample :
    errorSource (ErrorKind.IoError ⟨"disk full"⟩) = none := rfl

/-- Claim C8 (amended): `Error::source` exposes the underlying cause only
for wrapped transport errors — `HttpClientError` yields `Some` of the
wrapped `reqwest` error, while `IoError` (like every other kind) yields
`None`, so only transport causes can be walked by a reporting layer. -/
theorem C8_source_only_transport :
    (∀ e : ReqwestError, errorSource (.HttpClientError e) = some (.fromReqwest e)) ∧
    (∀ e : IoError, errorSource (.IoError e) = none) :=
  ⟨fun _ => rfl, fun _ => rfl⟩

/-- Claim C3: when the tree listing succeeds (status 200, readable body,
well-formed JSON with a `tree` key deserializing to `entries`),
`get_dentries` returns `Ok` of exactly the entries whose type is "blob":
the result is the filter of the input, its length is the number of blob
entries, it is a sublist of the input (relative order preserved, no
re-sorting), and every returned entry has type "blob". -/
theorem C3_blob_filtering
    (user repo : String) (tree : Option String)
    (res : HttpResponse) (parse : String → Option Json)
    (deser : Json → Option (List GitHubDirEntry))
    (text : String) (body tv : Json) (entries : List GitHubDirEntry)
    (h200 : res.status = 200) (htext : res.textResult = .ok text)
    (hparse : parse text = some body) (htree : body.get "tree" = some tv)
    (hdeser : deser tv = some entries) :
    get_dentries user repo tree (.ok res) parse deser
      = .ok (entries.filter (fun d => d.ty == "blob")) ∧
    (entries.filter (fun d => d.ty == "blob")).length
      = entries.countP (fun d => d.ty == "blob") ∧
    (entries.filter (fun d => d.ty == "blob")).Sublist entries ∧
    (entries.filter (fun d => d.ty == "blob")).all (fun d => d.ty == "blob") = true := by
  refine ⟨?_, ?_, List.filter_sublist _, ?_⟩
  · simp [get_dentries, send, h200, htext, hparse, htree, hdeser]
  · rw [List.countP_eq_length_filter]
  · simp only [List.all_eq_true]
    intro d hd
    exact (List.mem_filter.mp hd).2

/-- Claim C3 witness at the demo listing of two blobs around a tree entry. -/
theorem C3_witness :
    get_dentries "owner" "demo" none (.ok demoRes) demoParse demoDeser
      = .ok (demoEntries.filter (fun d => d.ty == "blob")) ∧
    (demoEntries.filter (fun d => d.ty == "blob")).length
      = demoEntries.countP (fun d => d.ty == "blob") ∧
    (demoEntries.filter (fun d => d.ty == "blob")).Sublist demoEntries ∧
    (demoEntries.filter (fun d => d.ty == "blob")).all (fun d => d.ty == "blob") = true :=
  C3_blob_filtering "owner" "demo" none demoRes demoParse demoDeser
    "tree json" demoBody demoTree demoEntries rfl rfl rfl rfl rfl

/-- Claim C4 counterexample: a tree-listing call that returns a non-200
status (404) whose error body cannot be read does not produce a
`TreeDoesNotExist` error — `send`'s `res.text().await.unwrap()` panics
instead, so the claim's universal mapping of every non-200 response to
`TreeDoesNotExist` fails at this input. -/
theorem C4_counterexample :
    get_dentries "owner" "name" none
        (.ok ⟨404, .error ⟨"connection reset while reading body"⟩⟩) noParse noDeser
      = .panicked "called Result::unwrap on an Err value" ∧
    (Step.panicked "called Result::unwrap on an Err value"
        : Step (List GitHubDirEntry))
      ≠ .err (.TreeDoesNotExist "main" "owner/name") := by
  exact ⟨rfl, by decide⟩

/-- Claim C4 (amended): whenever the tree-listing request fails outright to
send, or returns a non-200 status whose error body can be read, the result
of `get_dentries` is exactly a `TreeDoesNotExist` error carrying the
requested tree (defaulted to "main") and the "owner/name" repository string
— in particular it is never a `GitHubStatusFailure`.  (If reading the
non-200 error body itself fails, `send` panics on `unwrap` instead of
returning any error.) -/
theorem C4_tree_error_mapping
    (user repo : String) (tree : Option String)
    (transport : Except ReqwestError HttpResponse)
    (parse : String → Option Json) (deser : Json → Option (List GitHubDirEntry))
    (hfail : (∃ e, transport = .error e) ∨
      (∃ res msg, transport = .ok res ∧ res.status ≠ 200 ∧ res.textResult = .ok msg)) :
    get_dentries user repo tree transport parse deser
      = .err (.TreeDoesNotExist (tree.getD "main") (user ++ "/" ++ repo)) := by
  rcases hfail with ⟨e, rfl⟩ | ⟨res, msg, rfl, hst, htx⟩
  · rfl
  · simp [get_dentries, send, hst, htx]

/-- Claim C4 witness at an outright transport failure. -/
theorem C4_witness :
    get_dentries "owner" "name" none (.error ⟨"dns failure"⟩) noParse noDeser
      = .err (.TreeDoesNotExist "main" ("owner" ++ "/" ++ "name")) :=
  C4_tree_error_mapping "owner" "name" none (.error ⟨"dns failure"⟩) noParse noDeser
    (Or.inl ⟨⟨"dns failure"⟩, rfl⟩)

/-- Claim C6 counterexample: at a 404 tree-listing response, the inner
operation `send` produces an error of kind `GitHubStatusFailure`, but its
caller `get_dentries` returns an error of the different kind
`TreeDoesNotExist` — an error kind is replaced by another, contradicting
the claim that no operation ever does so. -/
theorem C6_counterexample :
    send c6transport = .err (.GitHubStatusFailure 404 "Not Found") ∧
    get_dentries "owner" "name" none c6transport noParse noDeser
      = .err (.TreeDoesNotExist "main" "owner/name") ∧
    ErrorKind.TreeDoesNotExist "main" "owner/name"
      ≠ ErrorKind.GitHubStatusFailure 404 "Not Found" :=
  ⟨rfl, rfl, by decide⟩

/-- Claim C6 (amended): errors converted by the `From` instances keep their
kind — `get_dentries` propagates a body-read transport failure unchanged as
`HttpClientError` — but the one deliberate exception is the tree-listing
send: `get_dentries` replaces every error returned by `send` (whatever its
kind) with a `TreeDoesNotExist` error. -/
theorem C6_error_kind_propagation
    (user repo : String) (tree : Option String)
    (parse : String → Option Json) (deser : Json → Option (List GitHubDirEntry))
    (res : HttpResponse) (e : ReqwestError)
    (transport2 : Except ReqwestError HttpResponse) (k : ErrorKind)
    (h200 : res.status = 200) (htext : res.textResult = .error e)
    (hsend : send transport2 = .err k) :
    get_dentries user repo tree (.ok res) parse deser = .err (.HttpClientError e) ∧
    get_dentries user repo tree transport2 parse deser
      = .err (.TreeDoesNotExist (tree.getD "main") (user ++ "/" ++ repo)) := by
  constructor
  · simp [get_dentries, send, h200, htext]
  · simp [get_dentries, hsend]

/-- Claim C6 amended-claim witness: the body-read failure of `c6res` is
propagated unchanged, while the 404 status failure of `c6transport` is
replaced by `TreeDoesNotExist`. -/
theorem C6_witness :
    get_dentries "owner" "name" none (.ok c6res) noParse noDeser
      = .err (.HttpClientError ⟨"body read failed"⟩) ∧
    get_dentries "owner" "name" none c6transport noParse noDeser
      = .err (.TreeDoesNotExist "main" ("owner" ++ "/" ++ "name")) :=
  C6_error_kind_propagation "owner" "name" none noParse noDeser
    c6res ⟨"body read failed"⟩ c6transport (.GitHubStatusFailure 404 "Not Found")
    rfl rfl rfl

/-- Claim C7: a 200 tree-listing response whose body parses as well-formed
JSON but lacks a top-level `tree` key makes `get_dentries` return exactly a
`ResponseKeyError` with key "tree" — being an `err` outcome, no (partial)
entry list is produced. -/
theorem C7_missing_key
    (user repo : String) (tree : Option String)
    (res : HttpResponse) (parse : String → Option Json)
    (deser : Json → Option (List GitHubDirEntry))
    (text : String) (body : Json)
    (h200 : res.status = 200) (htext : res.textResult = .ok text)
    (hparse : parse text = some body) (hnokey : body.get "tree" = none) :
    get_dentries user repo tree (.ok res) parse deser
      = .err (.ResponseKeyError "tree") := by
  simp [get_dentries, send, h200, htext, hparse, hnokey]

/-- Claim C7 witness at a parsed document carrying only a message key. -/
theorem C7_witness :
    get_dentries "owner" "name" none (.ok demoRes) noTreeParse noDeser
      = .err (.ResponseKeyError "tree") :=
  C7_missing_key "owner" "name" none demoRes noTreeParse noDeser
    "tree json" noTreeBody rfl rfl rfl rfl

/-- Claim C5: the child picker's termination is mapped three ways — exit
code 0 reads the output, trims it and splits it on newlines (so "a\nb"
yields the chosen sequence ["a","b"]); a signal termination (no exit code)
yields an `Interrupted` error; any non-zero exit code yields an `Other`
error whose message interpolates the raw exit status. -/
theorem C5_exit_code_mapping
    (sig c : Nat) (hc : c ≠ 0)
    (readB readC : Except IoError (List Char)) :
    interpretFzf (.exited 0) (.ok ['a', '\n', 'b']) = .ok (some [['a'], ['b']]) ∧
    interpretFzf (.signaled sig) readB = .err .Interrupted ∧
    interpretFzf (.exited c) readC
      = .err (.Other ("An error occured; likely, a file was not chosen: "
          ++ (ExitStatus.exited c).display)) := by
  refine ⟨by decide, rfl, ?_⟩
  cases c with
  | zero => exact absurd rfl hc
  | succ n => rfl

/-- Claim C5 witness: exit code 0 with output "a\nb", signal 9, and exit
code 2. -/
theorem C5_witness :
    (2 : Nat) ≠ 0 ∧
    (interpretFzf (.exited 0) (.ok ['a', '\n', 'b']) = .ok (some [['a'], ['b']]) ∧
     interpretFzf (.signaled 9) (.ok []) = .err .Interrupted ∧
     interpretFzf (.exited 2) (.ok [])
       = .err (.Other ("An error occured; likely, a file was not chosen: "
           ++ (ExitStatus.exited 2).display))) :=
  ⟨by decide, C5_exit_code_mapping 9 2 (by decide) (.ok []) (.ok [])⟩

/-- Claim C9 counterexample: no successful picker run can yield `Chosen` of
the empty sequence — splitting the trimmed output on newlines always
produces at least one segment, so in particular the run the claim appeals
to (exit code 0 with empty standard output) yields `Chosen([""])`, not
`Chosen([])`. -/
theorem C9_counterexample :
    ¬ ∃ r : Except IoError (List Char),
      interpretFzf (.exited 0) r = .ok (some []) := by
  rintro ⟨r, hr⟩
  cases r with
  | error e => simp [interpretFzf, ExitStatus.success] at hr
  | ok output =>
    simp only [interpretFzf, ExitStatus.success, if_true] at hr
    exact splitNl_ne_nil (rustTrim output) (by
      injection hr with h
      injection h)

/-- Claim C9 (amended): the `Chosen` outcome is never the empty sequence.
A successful run with empty standard output yields `Chosen` of one empty
string (Rust's `split` on an empty input yields one empty segment), and no
read outcome whatsoever makes a code-0 run return the empty sequence. -/
theorem C9_chosen_never_empty :
    interpretFzf (.exited 0) (.ok []) = .ok (some [[]]) ∧
    ∀ r : Except IoError (List Char),
      interpretFzf (.exited 0) r ≠ .ok (some []) := by
  refine ⟨rfl, ?_⟩
  intro r hr
  cases r with
  | error e => simp [interpretFzf, ExitStatus.success] at hr
  | ok output =>
    simp only [interpretFzf, ExitStatus.success, if_true] at hr
    exact splitNl_ne_nil (rustTrim output) (by
      injection hr with h
      injection h)

/-- Claim C2: if every local write succeeds, the fetch pipeline completes
every chosen target and collects one outcome per target; any target whose
HTTP GET and body read succeed is written to its local path with the
fetched body, and any target whose HTTP GET fails at the transport stage
has its failure logged — the failure does not prevent any other target from
completing. -/
theorem C2_fault_isolation
    (fetch : String → Except ReqwestError RawResponse)
    (write : String → String → Bool) (user repo : String)
    (paths : List String) (p q : String)
    (hp : p ∈ paths) (hq : q ∈ paths)
    (r : RawResponse) (b : String)
    (hpf : fetch (rawContentUrl user repo p) = .ok r) (hpt : r.text = .ok b)
    (e : ReqwestError) (hqf : fetch (rawContentUrl user repo q) = .error e)
    (hw : ∀ x y, write x y = true) :
    runFetchAll fetch write user repo paths
      = .ok (paths.map (runFetchTask fetch write user repo)) ∧
    TaskOutcome.wrote p b ∈ paths.map (runFetchTask fetch write user repo) ∧
    TaskOutcome.logged ("when downloading " ++ rawContentUrl user repo q)
      ∈ paths.map (runFetchTask fetch write user repo) := by
  refine ⟨runFetchAll_eq_map fetch write user repo hw paths, ?_, ?_⟩
  · have htask : runFetchTask fetch write user repo p = .wrote p b := by
      simp [runFetchTask, hpf, hpt, hw]
    rw [← htask]
    exact List.mem_map_of_mem _ hp
  · have htask : runFetchTask fetch write user repo q
        = .logged ("when downloading " ++ rawContentUrl user repo q) := by
      simp [runFetchTask, hqf]
    rw [← htask]
    exact List.mem_map_of_mem _ hq

/-- Claim C2 witness: three targets, the second of which fails at the
transport stage; the first is still written with its fetched body and the
second's failure is logged. -/
theorem C2_witness :
    runFetchAll w2fetch w2write "u" "r" ["one", "two", "three"]
      = .ok (["one", "two", "three"].map (runFetchTask w2fetch w2write "u" "r")) ∧
    TaskOutcome.wrote "one" ("body of " ++ rawContentUrl "u" "r" "one")
      ∈ ["one", "two", "three"].map (runFetchTask w2fetch w2write "u" "r") ∧
    TaskOutcome.logged ("when downloading " ++ rawContentUrl "u" "r" "two")
      ∈ ["one", "two", "three"].map (runFetchTask w2fetch w2write "u" "r") :=
  C2_fault_isolation w2fetch w2write "u" "r" ["one", "two", "three"] "one" "two"
    (by simp) (by simp)
    ⟨.ok ("body of " ++ rawContentUrl "u" "r" "one")⟩
    ("body of " ++ rawContentUrl "u" "r" "one")
    (by simp [w2fetch, rawContentUrl]) rfl
    ⟨"connection refused"⟩ (by simp [w2fetch])
    (fun _ _ => rfl)

/-- Claim C10: a local write failure is not isolated — the task whose fetch
and body read succeed but whose `fs::write` fails produces the panic of
`expect` with message "Unable to write file", and the whole pipeline run
aborts with that panic (no outcome list is produced and the targets not yet
completed are dropped), provided the tasks completed before it did not
themselves panic. -/
theorem C10_write_panic
    (fetch : String → Except ReqwestError RawResponse)
    (write : String → String → Bool) (user repo : String)
    (pre post : List String) (p : String)
    (r : RawResponse) (b : String)
    (hpre : ∀ q ∈ pre, ∀ m, runFetchTask fetch write user repo q ≠ .panicked m)
    (hf : fetch (rawContentUrl user repo p) = .ok r) (ht : r.text = .ok b)
    (hw : write p b = false) :
    runFetchTask fetch write user repo p = .panicked "Unable to write file" ∧
    runFetchAll fetch write user repo (pre ++ p :: post)
      = .error "Unable to write file" := by
  have htask : runFetchTask fetch write user repo p = .panicked "Unable to write file" := by
    simp [runFetchTask, hf, ht, hw]
  refine ⟨htask, ?_⟩
  induction pre with
  | nil => simp [runFetchAll, htask]
  | cons q qs ih =>
    have hq := hpre q (List.mem_cons_self q qs)
    have ihq := ih (fun x hx m => hpre x (List.mem_cons_of_mem q hx) m)
    simp only [List.cons_append, runFetchAll]
    cases h : runFetchTask fetch write user repo q with
    | wrote a c => simp [ihq, Except.map]
    | logged msg => simp [ihq, Except.map]
    | panicked m => exact absurd h (hq m)

/-- Claim C10 witness: targets ["x", "bad", "y"] where the write oracle
fails exactly for "bad"; the run aborts with the expect message. -/
theorem C10_witness :
    runFetchTask w10fetch w10write "u" "r" "bad" = .panicked "Unable to write file" ∧
    runFetchAll w10fetch w10write "u" "r" (["x"] ++ "bad" :: ["y"])
      = .error "Unable to write file" :=
  C10_write_panic w10fetch w10write "u" "r" ["x"] ["y"] "bad"
    ⟨.ok ("data " ++ rawContentUrl "u" "r" "bad")⟩
    ("data " ++ rawContentUrl "u" "r" "bad")
    (by
      intro q hq m
      simp only [List.mem_singleton] at hq
      subst hq
      simp [runFetchTask, w10fetch, w10write, rawContentUrl])
    rfl rfl (by simp [w10write])

/-- Claim C1: along every execution of the `buffer_unordered(4)` fetch
scheduler — every state reachable from the initial state on any list of
chosen targets — the number of fetches in flight never exceeds the fixed
cap of 4. -/
theorem C1_bounded_concurrency (targets : List String) (s : FetchState)
    (h : FetchReach fetchConcurrency targets s) :
    s.inFlight.length ≤ fetchConcurrency := by
  induction h with
  | init => simp
  | step hr hstep ih =>
    cases hstep with
    | start p ps fl fin hlt => exact hlt
    | complete p pend fl₁ fl₂ fin =>
      simp only [List.length_append, List.length_cons] at ih ⊢
      omega

/-- Claim C1 witness: a concrete reachable state of a ten-target run with
one fetch started. -/
theorem C1_witness :
    FetchReach fetchConcurrency
      ["a", "b", "c", "d", "e", "f", "g", "h", "i", "j"]
      ⟨["b", "c", "d", "e", "f", "g", "h", "i", "j"], ["a"], []⟩ ∧
    (FetchState.mk ["b", "c", "d", "e", "f", "g", "h", "i", "j"] ["a"] []).inFlight.length
      ≤ fetchConcurrency :=
  have hr : FetchReach fetchConcurrency
      ["a", "b", "c", "d", "e", "f", "g", "h", "i", "j"]
      ⟨["b", "c", "d", "e", "f", "g", "h", "i", "j"], ["a"], []⟩ :=
    .step .init
      (.start "a" ["b", "c", "d", "e", "f", "g", "h", "i", "j"] [] [] (by decide))
  ⟨hr, C1_bounded_concurrency _ _ hr⟩

end Gitdown
